import Mathlib

/-!
Shallow embedding of the plotme CSV plotting application (Rust sources under
src/), together with theorems settling the frozen claims about its
specification.  Machine floats (f64, f32) are modelled over the rationals,
numeric text fields by their parse result, and the strings pushed onto the
error log by a structured type recording the numbers interpolated into each
format string.
-/

namespace Plotme

/-- States of a file entry, the Rust enum FileEntryState of src/file_entry.rs. -/
inductive FileEntryState
  | Idle
  | Plotted
  | PreviouslyPlotted
  | Active
  | NeedsConfig
deriving DecidableEq

/-- Model of the numeric text field (Rust struct FloatInput of src/app.rs).
The field is represented by the parse result of its text: a rational for text
that parses as a float, an opaque string for text that does not. -/
inductive NumField
  | num (q : ℚ)
  | raw (s : String)
deriving DecidableEq

/-- Model of FloatInput::parse (src/app.rs lines 35-39). -/
def NumField.parse : NumField → Option ℚ
  | .num q => some q
  | .raw _ => none

/-- Model of the Rust struct CSVFile (src/csvfile.rs lines 5-15); the f64 point
pairs become rational pairs and the delimiter and comment bytes become
characters. -/
structure CSVFile where
  filepath : String
  data : List (ℚ × ℚ)
  delimiter : Char
  comment_char : Char
  xcol : ℕ
  ycol : ℕ
  skip_header : ℕ
  skip_footer : ℕ
deriving DecidableEq

/-- Model of the Rust struct FileEntry (src/file_entry.rs lines 9-20); the
color is an opaque number. -/
structure FileEntry where
  filename : String
  data_file : CSVFile
  scale : NumField
  offset : NumField
  xoffset : NumField
  color : ℕ
  state : FileEntryState
  id : ℕ
  preview : String
deriving DecidableEq

/-- Splits a character list at every occurrence of the separator, keeping empty
pieces, modelling Rust str::split as well as the line and field splitting done
by the csv reader. -/
def splitOnChar (sep : Char) : List Char → List (List Char)
  | [] => [[]]
  | c :: cs =>
    match splitOnChar sep cs with
    | [] => [[]]
    | cur :: rest => if c = sep then [] :: cur :: rest else (c :: cur) :: rest

/-- Model of Rust str::contains for a string pattern: substring containment. -/
def containsSub (hay needle : List Char) : Bool :=
  (List.range (hay.length + 1)).any fun i => needle.isPrefixOf (hay.drop i)

/-- The search filter used by FileEntry::should_be_listed (src/file_entry.rs
lines 66-68): every whitespace-separated token of the search phrase occurs in
the filename. -/
def tokensMatch (search_phrase filename : String) : Bool :=
  (splitOnChar ' ' search_phrase.toList).all fun t => containsSub filename.toList t

/-- The three-way match of FileEntry::should_be_listed (src/file_entry.rs lines
69-73) over the contains flag, the expanded flag and the state. -/
def shouldBeListedCore (contains_search_phrase folder_is_expanded : Bool)
    (s : FileEntryState) : Bool :=
  match contains_search_phrase, folder_is_expanded, s with
  | true, true, _ => true
  | _, _, .Idle => false
  | _, _, _ => true

/-- Model of FileEntry::should_be_listed (src/file_entry.rs lines 64-74). -/
def shouldBeListed (e : FileEntry) (search_phrase : String)
    (folder_is_expanded : Bool) : Bool :=
  shouldBeListedCore (tokensMatch search_phrase e.filename) folder_is_expanded e.state

/-- Formalisation of the claim C6 sentence, for comparison with the source
predicate: listed iff the filename matches every token and the folder is
expanded, or the state is not Idle where PreviouslyPlotted additionally
requires the folder to be expanded. -/
def shouldBeListedClaim (e : FileEntry) (search_phrase : String)
    (folder_is_expanded : Bool) : Bool :=
  (tokensMatch search_phrase e.filename && folder_is_expanded)
    || (decide (e.state ≠ .Idle)
        && (decide (e.state ≠ .PreviouslyPlotted) || folder_is_expanded))

/-- Model of FileEntry::is_plotted (src/file_entry.rs lines 81-87). -/
def isPlotted : FileEntryState → Bool
  | .Plotted | .Active | .NeedsConfig => true
  | .Idle | .PreviouslyPlotted => false

/-- Model of FileEntry::was_just_plotted (src/file_entry.rs lines 88-94); both
match arms of the source return true. -/
def wasJustPlotted : FileEntryState → Bool
  | .Idle | .Plotted | .Active | .NeedsConfig => true
  | .PreviouslyPlotted => true

/-- Model of the listing guard of Folder::list_files_ui (src/folder.rs lines
26-36); the source places the expanded check inside the all-closure. -/
def listFilesGuard (search_phrase : String) (expanded : Bool) (e : FileEntry) : Bool :=
  ((splitOnChar ' ' search_phrase.toList).all fun t =>
      containsSub e.filename.toList t && expanded)
    || isPlotted e.state || (wasJustPlotted e.state && expanded)

/-- Model of FileEntry::search_phrase_changed (src/file_entry.rs lines
135-144). -/
def searchPhraseChanged : FileEntryState → FileEntryState
  | .PreviouslyPlotted => .Idle
  | .Idle => .Idle
  | .Plotted => .Plotted
  | .Active => .Active
  | .NeedsConfig => .NeedsConfig

/-- Model of the search-phrase block of App::file_tree_ui (src/app.rs lines
432-443): when the phrase differs from the previous one, every
PreviouslyPlotted entry is set to Idle. -/
def phraseChangeUpdate (prev_search_phrase search_phrase : String)
    (files : List FileEntry) : List FileEntry :=
  if prev_search_phrase ≠ search_phrase then
    files.map fun e =>
      if e.state = .PreviouslyPlotted then { e with state := .Idle } else e
  else files

/-- Ingestion parameters a FileEntry passes to CSVFile::new. -/
structure CsvParams where
  xcol : ℕ
  ycol : ℕ
  delimiter : Char
  comment_char : Char
  skip_header : ℕ
  skip_footer : ℕ
deriving DecidableEq

/-- The current parameters of a data file, as read off by FileEntry::clicked
and FileEntry::reload_csv when they call CSVFile::new. -/
def CSVFile.params (c : CSVFile) : CsvParams :=
  ⟨c.xcol, c.ycol, c.delimiter, c.comment_char, c.skip_header, c.skip_footer⟩

/-- The transition table of the else-branch of FileEntry::clicked
(src/file_entry.rs lines 119-125). -/
def clickToggle : FileEntryState → FileEntryState
  | .Active | .Plotted => .PreviouslyPlotted
  | .Idle | .PreviouslyPlotted => .Plotted
  | .NeedsConfig => .Idle

/-- Model of FileEntry::clicked (src/file_entry.rs lines 99-127).  The
filesystem read performed by CSVFile::new is abstracted into the oracle
ingest, invoked with the current ingestion parameters of the entry exactly as
the source passes them. -/
def clicked (ingest : CsvParams → Option CSVFile) (e : FileEntry) : FileEntry :=
  if e.data_file.data = [] ∧ e.state ≠ .NeedsConfig then
    match ingest e.data_file.params with
    | some csvfile => { e with state := .Plotted, data_file := csvfile }
    | none => { e with state := .NeedsConfig }
  else
    { e with state := clickToggle e.state }

/-- Model of FileEntry::reload_csv (src/file_entry.rs lines 49-63), with the
same ingestion oracle abstraction as clicked. -/
def reloadCsv (ingest : CsvParams → Option CSVFile) (e : FileEntry) : FileEntry :=
  match ingest e.data_file.params with
  | some csvfile => { e with data_file := csvfile }
  | none => e

/-- Model of the per-frame acceleration update of App::update (src/app.rs
lines 57-66): a press edge resets the value to 1, and while the button is down
the value is multiplied by 1.03, written 103/100 over the rationals. -/
def accelStep (primary_pressed primary_down : Bool)
    (acceleration : Option ℚ) : Option ℚ :=
  let acceleration := if primary_pressed then some 1 else acceleration
  if primary_down then acceleration.map (fun acc => acc * (103 / 100)) else acceleration

/-- Model of f32::signum restricted to the values without a negative zero. -/
def qsignum (q : ℚ) : ℚ := if q < 0 then -1 else 1

/-- Model of the scale pass of App::plot_panel_ui (src/plot.rs lines 44-59);
the guard updates exactly the Active entries. -/
def scalePassPlotPanel (d_down f_down : Bool) (dy : ℚ) (acceleration : Option ℚ)
    (e : FileEntry) : FileEntry :=
  if ¬d_down ∧ f_down ∧ dy ≠ 0 then
    if ¬(e.state = .Active) then e
    else
      match e.scale.parse with
      | some scale =>
        { e with scale := .num (scale - qsignum dy * scale * (1 / 100) * acceleration.getD 1) }
      | none => e
  else e

/-- Model of the y-offset pass of App::plot_panel_ui (src/plot.rs lines
60-77).  The source guard skips Active entries and updates all the others,
although the comment above it says it offsets active plots. -/
def offsetPassPlotPanel (d_down f_down : Bool) (dy yspan : ℚ)
    (acceleration : Option ℚ) (e : FileEntry) : FileEntry :=
  if d_down ∧ ¬f_down ∧ dy ≠ 0 then
    if e.state = .Active then e
    else
      match e.offset.parse with
      | some offset =>
        { e with offset := .num (offset - qsignum dy * yspan * (1 / 1000) * acceleration.getD 1) }
      | none => e
  else e

/-- Model of the x-offset pass of App::plot_panel_ui (src/plot.rs lines
78-95); the guard likewise skips Active entries and updates all the others. -/
def xoffsetPassPlotPanel (g_down : Bool) (dx xspan : ℚ)
    (acceleration : Option ℚ) (e : FileEntry) : FileEntry :=
  if g_down ∧ dx ≠ 0 then
    if e.state = .Active then e
    else
      match e.xoffset.parse with
      | some xoffset =>
        { e with xoffset := .num (xoffset + qsignum dx * xspan * (1 / 1000) * acceleration.getD 1) }
      | none => e
  else e

/-- Model of the scale pass of App::update (src/app.rs lines 74-90); the guard
updates exactly the Active entries. -/
def scalePassUpdate (d_down f_down : Bool) (dy : ℚ) (acceleration : Option ℚ)
    (e : FileEntry) : FileEntry :=
  if ¬d_down ∧ f_down ∧ dy ≠ 0 then
    if e.state ≠ .Active then e
    else
      match e.scale.parse with
      | some scale =>
        { e with scale := .num (scale - qsignum dy * scale * (1 / 100) * acceleration.getD 1) }
      | none => e
  else e

/-- Model of the y-offset pass of App::update (src/app.rs lines 91-108); the
guard updates exactly the Active entries. -/
def offsetPassUpdate (d_down f_down : Bool) (dy yspan : ℚ)
    (acceleration : Option ℚ) (e : FileEntry) : FileEntry :=
  if d_down ∧ ¬f_down ∧ dy ≠ 0 then
    if e.state ≠ .Active then e
    else
      match e.offset.parse with
      | some offset =>
        { e with offset := .num (offset - qsignum dy * yspan * (1 / 1000) * acceleration.getD 1) }
      | none => e
  else e

/-- Model of the x-offset pass of App::update (src/app.rs lines 109-126); the
guard updates exactly the Active entries. -/
def xoffsetPassUpdate (g_down : Bool) (dx xspan : ℚ)
    (acceleration : Option ℚ) (e : FileEntry) : FileEntry :=
  if g_down ∧ dx ≠ 0 then
    if e.state ≠ .Active then e
    else
      match e.xoffset.parse with
      | some xoffset =>
        { e with xoffset := .num (xoffset + qsignum dx * xspan * (1 / 1000) * acceleration.getD 1) }
      | none => e
  else e

/-- The three gesture passes of App::plot_panel_ui applied to one entry in
source order. -/
def plotPanelGestures (d_down f_down g_down : Bool) (dx dy xspan yspan : ℚ)
    (acceleration : Option ℚ) (e : FileEntry) : FileEntry :=
  xoffsetPassPlotPanel g_down dx xspan acceleration
    (offsetPassPlotPanel d_down f_down dy yspan acceleration
      (scalePassPlotPanel d_down f_down dy acceleration e))

/-- The three gesture passes of App::update applied to one entry in source
order. -/
def updateGestures (d_down f_down g_down : Bool) (dx dy xspan yspan : ℚ)
    (acceleration : Option ℚ) (e : FileEntry) : FileEntry :=
  xoffsetPassUpdate g_down dx xspan acceleration
    (offsetPassUpdate d_down f_down dy yspan acceleration
      (scalePassUpdate d_down f_down dy acceleration e))

/-- Structured model of the strings pushed onto the error log by
src/csvfile.rs: each constructor records the numbers the source interpolates
into the corresponding format string; rows are reported 1-based. -/
inductive LogEntry
  | fileError
  | rowError (row : ℕ)
  | xColError (xcol : ℕ) (row : ℕ)
  | yColError (ycol : ℕ) (row : ℕ)
  | colsError (xcol ycol : ℕ) (row : ℕ)
deriving DecidableEq

/-- The 1-based row number named by a warning. -/
def LogEntry.rowOf : LogEntry → ℕ
  | .fileError => 0
  | .rowError r => r
  | .xColError _ r => r
  | .yColError _ r => r
  | .colsError _ _ r => r

/-- Whether a warning names the given column index. -/
def LogEntry.mentionsCol (c : ℕ) : LogEntry → Bool
  | .xColError x _ => x == c
  | .yColError y _ => y == c
  | .colsError x y _ => x == c || y == c
  | _ => false

/-- Numeric value of a nonempty all-digit character list. -/
def digitsToNat (cs : List Char) : Option ℕ :=
  if cs = [] then none
  else
    cs.foldl
      (fun acc c =>
        acc.bind fun a => if c.isDigit then some (10 * a + (c.toNat - 48)) else none)
      (some 0)

/-- Model of Rust str::parse for f64, restricted to plain decimal literals: an
optional sign, a nonempty digit sequence, optionally followed by a point and a
nonempty digit sequence; everything else fails to parse. -/
def parseFloat (cs : List Char) : Option ℚ :=
  let signed := cs.head? = some '-' ∨ cs.head? = some '+'
  let body := if signed then cs.tail else cs
  let sign : ℚ := if cs.head? = some '-' then -1 else 1
  match splitOnChar '.' body with
  | [ip] => (digitsToNat ip).map fun n => sign * (n : ℚ)
  | [ip, fp] =>
    match digitsToNat ip, digitsToNat fp with
    | some a, some b => some (sign * ((a : ℚ) + (b : ℚ) / (10 : ℚ) ^ fp.length))
    | _, _ => none
  | _ => none

/-- Model of the external csv crate reader as configured by CSVFile::new
(src/csvfile.rs lines 43-46): a comment byte, a delimiter byte, and the crate
defaults of header handling on and flexible off.  Blank lines and lines
starting with the comment byte are skipped, the first remaining line is
consumed as the header, and every later line is split at the delimiter,
yielding an error item when its field count differs from that of the
header. -/
def csvRecords (delimiter comment_char : Char) (content : List Char) :
    List (Except Unit (List (List Char))) :=
  let ls := (splitOnChar '\n' content).filter fun l =>
    !l.isEmpty && l.head? != some comment_char
  match ls with
  | [] => []
  | header :: rest =>
    let n := (splitOnChar delimiter header).length
    rest.map fun l =>
      let fields := splitOnChar delimiter l
      if fields.length = n then .ok fields else .error ()

/-- Modelled from the spec: section 4.1 describes the reader behaviour with no
header consumption (comment lines skipped entirely, every remaining row a data
row); used to compare the intended parse of the example scenario with the
model of the code. -/
def csvRecordsSpec (delimiter comment_char : Char) (content : List Char) :
    List (Except Unit (List (List Char))) :=
  ((splitOnChar '\n' content).filter fun l =>
      !l.isEmpty && l.head? != some comment_char).map
    fun l => .ok (splitOnChar delimiter l)

/-- Column lookup plus float parse of parse_rows (src/csvfile.rs lines 94-95),
mirroring the nth-then-parse Option of Result shape. -/
def colParse (r : List (List Char)) (col : ℕ) : Option (Option ℚ) :=
  (r.get? col).map parseFloat

/-- Whether the value in the given column of a record exists and parses. -/
def colGood (col : ℕ) (r : List (List Char)) : Bool :=
  match colParse r col with
  | some (some _) => true
  | _ => false

/-- Whether both target columns of a record exist and parse. -/
def rowOk (xcol ycol : ℕ) (r : List (List Char)) : Bool :=
  colGood xcol r && colGood ycol r

/-- The point a record contributes when both target columns parse. -/
def rowPoint (xcol ycol : ℕ) (r : List (List Char)) : Option (ℚ × ℚ) :=
  match colParse r xcol, colParse r ycol with
  | some (some x), some (some y) => some (x, y)
  | _, _ => none

/-- The warning the failing arms of the parse_rows match push for a record
(src/csvfile.rs lines 100-122), at 0-based record index i. -/
def badWarn (xcol ycol i : ℕ) (r : List (List Char)) : LogEntry :=
  match colParse r xcol, colParse r ycol with
  | some (some _), some none => .yColError ycol (i + 1)
  | some none, some (some _) => .xColError xcol (i + 1)
  | some (some _), some (some _) => .colsError xcol ycol (i + 1)
  | _, _ => .colsError xcol ycol (i + 1)

/-- The four-way match of parse_rows (src/csvfile.rs lines 96-123) on one
record at 0-based index i: a point or the warning pushed. -/
def parseRecord (xcol ycol i : ℕ) (r : List (List Char)) :
    Except LogEntry (ℚ × ℚ) :=
  match colParse r xcol, colParse r ycol with
  | some (some x), some (some y) => .ok (x, y)
  | some (some _), some none => .error (.yColError ycol (i + 1))
  | some none, some (some _) => .error (.xColError xcol (i + 1))
  | _, _ => .error (.colsError xcol ycol (i + 1))

/-- The loop of parse_rows (src/csvfile.rs lines 84-124): reader errors and
failing records each append one warning and processing continues; parseable
records append their point. -/
def parseRowsAux (xcol ycol : ℕ) :
    ℕ → List (Except Unit (List (List Char))) → List (ℚ × ℚ) → List LogEntry →
    List (ℚ × ℚ) × List LogEntry
  | _, [], data, log => (data, log)
  | i, .error _ :: rest, data, log =>
    parseRowsAux xcol ycol (i + 1) rest data (log ++ [.rowError (i + 1)])
  | i, .ok r :: rest, data, log =>
    match parseRecord xcol ycol i r with
    | .ok p => parseRowsAux xcol ycol (i + 1) rest (data ++ [p]) log
    | .error w => parseRowsAux xcol ycol (i + 1) rest data (log ++ [w])

/-- Model of parse_rows (src/csvfile.rs lines 76-126). -/
def parseRows (xcol ycol : ℕ) (records : List (Except Unit (List (List Char))))
    (error_log : List LogEntry) : List (ℚ × ℚ) × List LogEntry :=
  parseRowsAux xcol ycol 0 records [] error_log

/-- Model of CSVFile::new (src/csvfile.rs lines 33-74).  The filesystem open
is abstracted into open_result: an error models a failing reader construction
(logged as a file error), an ok carries the record sequence the reader
yields.  An empty parse result yields no CSVFile. -/
def csvNew (filepath : String) (p : CsvParams)
    (open_result : Except Unit (List (Except Unit (List (List Char)))))
    (error_log : List LogEntry) : Option CSVFile × List LogEntry :=
  match open_result with
  | .error _ => (none, error_log ++ [.fileError])
  | .ok records =>
    let res := parseRows p.xcol p.ycol records error_log
    if res.1 = [] then (none, res.2)
    else
      (some ⟨filepath, res.1, p.delimiter, p.comment_char, p.xcol, p.ycol,
             p.skip_header, p.skip_footer⟩,
       res.2)

/-- Ingestion of a readable file with the given text content: the reader model
applied to the content, fed into the CSVFile::new model. -/
def ingestContent (filepath : String) (p : CsvParams) (content : String)
    (error_log : List LogEntry) : Option CSVFile × List LogEntry :=
  csvNew filepath p (.ok (csvRecords p.delimiter p.comment_char content.toList)) error_log

/-- A data file with no ingested data and the example column configuration. -/
def sampleCSV : CSVFile := ⟨"a.csv", [], ',', '#', 0, 1, 0, 0⟩

/-- An Idle entry with empty data and default transform fields. -/
def idleEntry : FileEntry := ⟨"a.csv", sampleCSV, .num 1, .num 0, .num 0, 0, .Idle, 0, ""⟩

/-- An Active entry with empty data and default transform fields. -/
def activeEntry : FileEntry := { idleEntry with state := .Active }

/-- A data file holding one ingested point. -/
def loadedCSV : CSVFile := { sampleCSV with data := [((1 : ℚ), 2)] }

/-- A PreviouslyPlotted entry, used for the visibility counterexample. -/
def prevPlottedEntry : FileEntry := { idleEntry with state := .PreviouslyPlotted }

/-- The CSV content of the example scenario of the spec. -/
def exampleContent : String := "1,2\n#comment\n3,x\n4,5\n"

/-- The ingestion parameters of the example scenario. -/
def exampleParams : CsvParams := ⟨0, 1, ',', '#', 0, 0⟩

/-- A record sequence in which no row parses, for the zero-yield witness. -/
def unparseableRecords : List (Except Unit (List (List Char))) :=
  [.ok ["u".toList, "v".toList]]

/-- A record whose two columns parse as 1 and 2. -/
def goodRow1 : List (List Char) := [['1'], ['2']]

/-- A record whose y-column does not parse. -/
def badRow : List (List Char) := [['3'], ['x']]

/-- A record whose two columns parse as 4 and 5. -/
def goodRow2 : List (List Char) := [['4'], ['5']]

/-- All five states map through was_just_plotted to true. -/
theorem wasJustPlotted_true (s : FileEntryState) : wasJustPlotted s = true := by
  cases s <;> rfl

/-- C6 counterexample: a PreviouslyPlotted entry in a collapsed folder whose
filename does not match the search phrase is listed by should_be_listed,
although the claim predicts that PreviouslyPlotted additionally requires the
folder to be expanded. -/
theorem c6_counterexample :
    shouldBeListed prevPlottedEntry "xyz" false = true ∧
    shouldBeListedClaim prevPlottedEntry "xyz" false = false := by
  decide

/-- C6 amended: should_be_listed returns true exactly when the filename
contains every whitespace-separated token of the search phrase and the folder
is expanded, or the state is not Idle; no extra expansion requirement applies
to PreviouslyPlotted. -/
theorem c6_should_be_listed_iff :
    ∀ (e : FileEntry) (search_phrase : String) (folder_is_expanded : Bool),
      shouldBeListed e search_phrase folder_is_expanded
        = (tokensMatch search_phrase e.filename && folder_is_expanded
            || decide (e.state ≠ .Idle)) := by
  intro e search_phrase folder_is_expanded
  unfold shouldBeListed
  cases h : tokensMatch search_phrase e.filename <;>
    cases folder_is_expanded <;> cases e.state <;> rfl

/-- C7: whenever the global search phrase changes, every PreviouslyPlotted
entry transitions to Idle and every entry in any other state keeps its state;
stated both for the per-entry transition function and for the per-frame block
of App::file_tree_ui. -/
theorem c7_search_phrase_change :
    (∀ s, searchPhraseChanged s = if s = .PreviouslyPlotted then .Idle else s) ∧
    ∀ (prev cur : String) (files : List FileEntry), prev ≠ cur →
      phraseChangeUpdate prev cur files
        = files.map fun e => { e with state := searchPhraseChanged e.state } := by
  constructor
  · intro s; cases s <;> rfl
  · intro prev cur files h
    unfold phraseChangeUpdate
    rw [if_pos h]
    congr 1
    funext e
    rcases e with ⟨fn, df, sc, off, xo, col, st, i, pv⟩
    cases st <;> rfl

/-- C7 witness: a concrete phrase change moves a PreviouslyPlotted entry as
the transition function prescribes. -/
theorem c7_witness :
    phraseChangeUpdate "a" "b" [prevPlottedEntry]
      = [prevPlottedEntry].map fun e => { e with state := searchPhraseChanged e.state } :=
  c7_search_phrase_change.2 "a" "b" [prevPlottedEntry] (by decide)

/-- C9: reload re-runs ingestion with the current parameters of the entry; on
success it replaces the stored data file, on failure it leaves the entry
completely unchanged, and the state is untouched in both cases. -/
theorem c9_reload :
    ∀ (ingest : CsvParams → Option CSVFile) (e : FileEntry),
      (reloadCsv ingest e).state = e.state ∧
      (ingest e.data_file.params = none → reloadCsv ingest e = e) ∧
      ∀ c, ingest e.data_file.params = some c →
        (reloadCsv ingest e).data_file = c ∧
        (reloadCsv ingest e).scale = e.scale ∧
        (reloadCsv ingest e).offset = e.offset ∧
        (reloadCsv ingest e).xoffset = e.xoffset ∧
        (reloadCsv ingest e).filename = e.filename := by
  intro ingest e
  refine ⟨?_, ?_, ?_⟩
  · unfold reloadCsv
    cases h : ingest e.data_file.params <;> rfl
  · intro h
    unfold reloadCsv
    rw [h]
  · intro c h
    unfold reloadCsv
    rw [h]
    exact ⟨rfl, rfl, rfl, rfl, rfl⟩

/-- C9 witness: a failing reload leaves a concrete entry unchanged. -/
theorem c9_witness : reloadCsv (fun _ => none) idleEntry = idleEntry :=
  (c9_reload (fun _ => none) idleEntry).2.1 rfl

/-- C10: was_just_plotted returns true in all five states, so the disjunct of
the listing guard pairing it with the expanded flag lists every entry of an
expanded folder independently of the search phrase. -/
theorem c10_was_just_plotted :
    (∀ s, wasJustPlotted s = true) ∧
    ∀ (search_phrase : String) (e : FileEntry),
      listFilesGuard search_phrase true e = true := by
  refine ⟨wasJustPlotted_true, ?_⟩
  intro search_phrase e
  unfold listFilesGuard
  rw [wasJustPlotted_true e.state]
  simp

unseal Rat.add Rat.mul Rat.sub Rat.inv in
/-- C1: evaluation of the two gesture implementations at one input sample (D
held, F and G up, vertical delta 1, spans 10, acceleration 1).  The y-offset
pass of App::plot_panel_ui modifies an Idle entry and leaves an Active entry
untouched, while the App::update passes leave the Idle entry untouched and
modify the Active one, so the plot_panel_ui guards contradict the claim that
only Active entries are edited. -/
theorem c1_gesture_guard_divergence :
    (plotPanelGestures true false false 0 1 10 10 (some 1) idleEntry).offset
        = NumField.num (-(1 / 100)) ∧
    idleEntry.offset = NumField.num 0 ∧
    plotPanelGestures true false false 0 1 10 10 (some 1) activeEntry = activeEntry ∧
    updateGestures true false false 0 1 10 10 (some 1) idleEntry = idleEntry ∧
    (updateGestures true false false 0 1 10 10 (some 1) activeEntry).offset
        = NumField.num (-(1 / 100)) := by
  decide

/-- Iterating the held-frame acceleration update after a press edge compounds
the factor 103/100 once per frame. -/
theorem accelStep_iter (acc0 : Option ℚ) :
    ∀ n : ℕ, (accelStep false true)^[n] (accelStep true true acc0)
      = some ((103 / 100 : ℚ) ^ (n + 1)) := by
  intro n
  induction n with
  | zero =>
    simp [accelStep]
  | succ n ih =>
    rw [Function.iterate_succ_apply', ih]
    simp [accelStep, pow_succ]

/-- C8: the acceleration is reset to 1 and immediately compounded on the press
frame, equals 1.03 to the N after N consecutive held frames starting at a
press edge, and stays frozen on frames where the button is up. -/
theorem c8_acceleration :
    (∀ (N : ℕ) (acc0 : Option ℚ), 1 ≤ N →
        (accelStep false true)^[N - 1] (accelStep true true acc0)
          = some ((103 / 100 : ℚ) ^ N)) ∧
    (∀ acc, accelStep false false acc = acc) ∧
    (∀ acc0, accelStep true true acc0 = some ((103 / 100 : ℚ) ^ 1)) := by
  refine ⟨?_, ?_, ?_⟩
  · intro N acc0 hN
    have h := accelStep_iter acc0 (N - 1)
    rwa [Nat.sub_add_cancel hN] at h
  · intro acc; rfl
  · intro acc0
    have h := accelStep_iter acc0 0
    simpa using h

/-- C8 witness: three held frames starting at a press edge yield the cube of
103/100. -/
theorem c8_witness :
    1 ≤ 3 ∧
    (accelStep false true)^[3 - 1] (accelStep true true none)
      = some ((103 / 100 : ℚ) ^ 3) :=
  ⟨by decide, c8_acceleration.1 3 none (by decide)⟩

/-- C2 counterexample: an Active entry with no ingested data attempts
ingestion on a primary click and lands in Plotted on success, while the claim
places every Active entry outside the ingestion branch and predicts
PreviouslyPlotted. -/
theorem c2_counterexample :
    (clicked (fun _ => some loadedCSV) activeEntry).state = .Plotted ∧
    FileEntryState.Plotted ≠ .PreviouslyPlotted ∧
    activeEntry.state = .Active ∧ activeEntry.data_file.data = [] := by
  decide

/-- C2 amended: a primary click attempts ingestion exactly when the entry has
no ingested data and is not NeedsConfig, whatever its state; success sets
Plotted and replaces the data file, failure sets NeedsConfig; otherwise the
state changes by exactly the toggle table Active or Plotted to
PreviouslyPlotted, Idle or PreviouslyPlotted to Plotted, NeedsConfig to
Idle. -/
theorem c2_clicked_full :
    ∀ (ingest : CsvParams → Option CSVFile) (e : FileEntry),
      (e.data_file.data = [] → e.state ≠ .NeedsConfig →
        clicked ingest e
          = match ingest e.data_file.params with
            | some csvfile => { e with state := .Plotted, data_file := csvfile }
            | none => { e with state := .NeedsConfig }) ∧
      (¬(e.data_file.data = [] ∧ e.state ≠ .NeedsConfig) →
        clicked ingest e = { e with state := clickToggle e.state }) ∧
      clickToggle .Active = .PreviouslyPlotted ∧
      clickToggle .Plotted = .PreviouslyPlotted ∧
      clickToggle .Idle = .Plotted ∧
      clickToggle .PreviouslyPlotted = .Plotted ∧
      clickToggle .NeedsConfig = .Idle := by
  intro ingest e
  refine ⟨?_, ?_, rfl, rfl, rfl, rfl, rfl⟩
  · intro h1 h2
    unfold clicked
    rw [if_pos (And.intro h1 h2)]
  · intro h
    unfold clicked
    rw [if_neg h]

/-- C2 witness: a first click on an Idle entry with empty data and a failing
ingestion lands in NeedsConfig. -/
theorem c2_witness :
    clicked (fun _ => none) idleEntry = { idleEntry with state := .NeedsConfig } := by
  have h := (c2_clicked_full (fun _ => none) idleEntry).1 rfl (by decide)
  exact h

unseal Rat.add Rat.mul Rat.sub Rat.inv in
/-- C3: evaluating the CSVFile::new model on the example content with
delimiter comma, comment hash, xcol 0 and ycol 1.  Because the reader keeps
the csv crate default of consuming the first non-comment row as a header, the
code produces the series [[4,5]] with one warning naming entry 1, whereas the
reader described by the spec (no header consumption) produces the claimed
series [[1,2],[4,5]] with one warning naming row 2. -/
theorem c3_example_ingestion :
    ((ingestContent "f.csv" exampleParams exampleContent []).1.map CSVFile.data
        = some [((4 : ℚ), 5)] ∧
      (ingestContent "f.csv" exampleParams exampleContent []).2
        = [LogEntry.yColError 1 1]) ∧
    ((csvNew "f.csv" exampleParams
          (.ok (csvRecordsSpec ',' '#' exampleContent.toList)) []).1.map CSVFile.data
        = some [((1 : ℚ), 2), (4, 5)] ∧
      (csvNew "f.csv" exampleParams
          (.ok (csvRecordsSpec ',' '#' exampleContent.toList)) []).2
        = [LogEntry.yColError 1 2]) := by
  decide

/-- C5: an ingestion whose parse collects zero points yields no CSVFile, and a
first primary click on an Idle entry with empty data whose ingestion fails
this way lands in NeedsConfig, not Plotted. -/
theorem c5_zero_yield :
    ∀ (e : FileEntry) (records : List (Except Unit (List (List Char))))
      (log : List LogEntry) (fp : String),
      e.state = .Idle → e.data_file.data = [] →
      (parseRows e.data_file.xcol e.data_file.ycol records log).1 = [] →
      (csvNew fp e.data_file.params (.ok records) log).1 = none ∧
      (clicked (fun p => (csvNew fp p (.ok records) log).1) e).state = .NeedsConfig ∧
      FileEntryState.NeedsConfig ≠ .Plotted := by
  intro e records log fp hs hd hp
  have hnone : (csvNew fp e.data_file.params (.ok records) log).1 = none := by
    unfold csvNew
    simp only [CSVFile.params]
    rw [if_pos hp]
  refine ⟨hnone, ?_, by decide⟩
  have hne : e.state ≠ .NeedsConfig := by rw [hs]; decide
  unfold clicked
  rw [if_pos (And.intro hd hne)]
  simp [hnone]

/-- C5 witness: a concrete record sequence in which no row parses drives a
concrete Idle entry to NeedsConfig. -/
theorem c5_witness :
    (csvNew "a.csv" idleEntry.data_file.params (.ok unparseableRecords) []).1 = none ∧
    (clicked (fun p => (csvNew "a.csv" p (.ok unparseableRecords) []).1) idleEntry).state
        = .NeedsConfig ∧
    FileEntryState.NeedsConfig ≠ .Plotted :=
  c5_zero_yield idleEntry unparseableRecords [] "a.csv" rfl rfl (by decide)

/-- The per-record match of parse_rows, split into the point and the pushed
warning. -/
theorem parseRecord_eq (xcol ycol i : ℕ) (r : List (List Char)) :
    parseRecord xcol ycol i r
      = match rowPoint xcol ycol r with
        | some p => .ok p
        | none => .error (badWarn xcol ycol i r) := by
  unfold parseRecord rowPoint badWarn
  rcases colParse r xcol with _ | (_ | x) <;> rcases colParse r ycol with _ | (_ | y) <;> rfl

/-- A record passing the row check contributes a point. -/
theorem rowPoint_isSome_of_rowOk (xcol ycol : ℕ) (r : List (List Char))
    (h : rowOk xcol ycol r = true) : ∃ p, rowPoint xcol ycol r = some p := by
  unfold rowOk colGood at h
  unfold rowPoint
  rcases hx : colParse r xcol with _ | (_ | x) <;> rcases hy : colParse r ycol with _ | (_ | y) <;>
    simp_all

/-- A record failing the row check contributes no point. -/
theorem rowPoint_none_of_not_rowOk (xcol ycol : ℕ) (r : List (List Char))
    (h : rowOk xcol ycol r = false) : rowPoint xcol ycol r = none := by
  unfold rowOk colGood at h
  unfold rowPoint
  rcases hx : colParse r xcol with _ | (_ | x) <;> rcases hy : colParse r ycol with _ | (_ | y) <;>
    simp_all

/-- Every pushed warning names the 1-based index of its record. -/
theorem badWarn_rowOf (xcol ycol i : ℕ) (r : List (List Char)) :
    (badWarn xcol ycol i r).rowOf = i + 1 := by
  unfold badWarn
  rcases colParse r xcol with _ | (_ | x) <;> rcases colParse r ycol with _ | (_ | y) <;> rfl

/-- When the x-column is missing or fails to parse, the pushed warning names
the x-column. -/
theorem badWarn_mentions_x (xcol ycol i : ℕ) (r : List (List Char))
    (h : colGood xcol r = false) :
    (badWarn xcol ycol i r).mentionsCol xcol = true := by
  unfold colGood at h
  unfold badWarn
  rcases hx : colParse r xcol with _ | (_ | x) <;> rcases hy : colParse r ycol with _ | (_ | y) <;>
    simp_all [LogEntry.mentionsCol]

/-- When the y-column is missing or fails to parse, the pushed warning names
the y-column. -/
theorem badWarn_mentions_y (xcol ycol i : ℕ) (r : List (List Char))
    (h : colGood ycol r = false) :
    (badWarn xcol ycol i r).mentionsCol ycol = true := by
  unfold colGood at h
  unfold badWarn
  rcases hx : colParse r xcol with _ | (_ | x) <;> rcases hy : colParse r ycol with _ | (_ | y) <;>
    simp_all [LogEntry.mentionsCol]

/-- On a run of records that all pass the row check, the parse loop appends
exactly their points and leaves the log unchanged. -/
theorem parseRowsAux_all_ok (xcol ycol : ℕ) :
    ∀ (rs : List (List (List Char))), (∀ r ∈ rs, rowOk xcol ycol r = true) →
      ∀ (i : ℕ) (data : List (ℚ × ℚ)) (log : List LogEntry),
        parseRowsAux xcol ycol i (rs.map .ok) data log
          = (data ++ rs.filterMap (rowPoint xcol ycol), log) := by
  intro rs
  induction rs with
  | nil => intro _ i data log; simp [parseRowsAux]
  | cons r rs ih =>
    intro h i data log
    obtain ⟨p, hp⟩ := rowPoint_isSome_of_rowOk xcol ycol r (h r (List.mem_cons_self r rs))
    simp only [List.map_cons, parseRowsAux, parseRecord_eq, hp]
    rw [ih (fun a ha => h a (List.mem_cons_of_mem r ha)) (i + 1) (data ++ [p]) log]
    simp [hp, List.filterMap_cons]

/-- The parse loop on a well-formed prefix, one failing record and a
well-formed suffix: the points of the prefix and suffix in order, and one
warning for the failing record at its position. -/
theorem parseRowsAux_split (xcol ycol : ℕ) (post : List (List (List Char)))
    (hpost : ∀ r ∈ post, rowOk xcol ycol r = true)
    (bad : List (List Char)) (hbad : rowOk xcol ycol bad = false) :
    ∀ (pre : List (List (List Char))), (∀ r ∈ pre, rowOk xcol ycol r = true) →
      ∀ (i : ℕ) (data : List (ℚ × ℚ)) (log : List LogEntry),
        parseRowsAux xcol ycol i ((pre ++ bad :: post).map .ok) data log
          = (data ++ pre.filterMap (rowPoint xcol ycol)
               ++ post.filterMap (rowPoint xcol ycol),
             log ++ [badWarn xcol ycol (i + pre.length) bad]) := by
  intro pre
  induction pre with
  | nil =>
    intro _ i data log
    have hnone := rowPoint_none_of_not_rowOk xcol ycol bad hbad
    simp only [List.nil_append, List.map_cons, parseRowsAux, parseRecord_eq, hnone]
    rw [parseRowsAux_all_ok xcol ycol post hpost (i + 1) data
      (log ++ [badWarn xcol ycol i bad])]
    simp
  | cons r pre ih =>
    intro hpre i data log
    obtain ⟨p, hp⟩ := rowPoint_isSome_of_rowOk xcol ycol r (hpre r (List.mem_cons_self r pre))
    simp only [List.cons_append, List.append_eq, List.map_cons, parseRowsAux,
      parseRecord_eq, hp]
    rw [ih (fun a ha => hpre a (List.mem_cons_of_mem r ha)) (i + 1) (data ++ [p]) log]
    simp [hp, List.filterMap_cons, List.length_cons, Nat.add_comm, Nat.add_assoc,
      Nat.add_left_comm]

/-- C4: on an ingestion run in which one record has a missing or unparseable
target column and all other records are well-formed, parse_rows returns
exactly the points of the well-formed records in order, continues past the bad
record, and appends exactly one warning naming the 1-based index of the bad
record and the offending column. -/
theorem c4_parse_rows_tolerance :
    ∀ (xcol ycol : ℕ) (pre post : List (List (List Char))) (bad : List (List Char))
      (log : List LogEntry),
      (∀ r ∈ pre, rowOk xcol ycol r = true) →
      (∀ r ∈ post, rowOk xcol ycol r = true) →
      rowOk xcol ycol bad = false →
      parseRows xcol ycol ((pre ++ bad :: post).map .ok) log
        = (pre.filterMap (rowPoint xcol ycol) ++ post.filterMap (rowPoint xcol ycol),
           log ++ [badWarn xcol ycol pre.length bad]) ∧
      (badWarn xcol ycol pre.length bad).rowOf = pre.length + 1 ∧
      (colGood xcol bad = false →
        (badWarn xcol ycol pre.length bad).mentionsCol xcol = true) ∧
      (colGood ycol bad = false →
        (badWarn xcol ycol pre.length bad).mentionsCol ycol = true) := by
  intro xcol ycol pre post bad log hpre hpost hbad
  refine ⟨?_, badWarn_rowOf xcol ycol pre.length bad,
    fun h => badWarn_mentions_x xcol ycol pre.length bad h,
    fun h => badWarn_mentions_y xcol ycol pre.length bad h⟩
  unfold parseRows
  rw [parseRowsAux_split xcol ycol post hpost bad hbad pre hpre 0 [] log]
  simp

unseal Rat.add Rat.mul Rat.sub Rat.inv in
/-- C4 witness: a three-record run whose middle record has an unparseable
y-column yields the two well-formed points and one warning naming row 2 and
column 1. -/
theorem c4_witness :
    parseRows 0 1 [.ok goodRow1, .ok badRow, .ok goodRow2] []
      = ([((1 : ℚ), 2), (4, 5)], [LogEntry.yColError 1 2]) := by
  have h := (c4_parse_rows_tolerance 0 1 [goodRow1] [goodRow2] badRow []
    (by decide) (by decide) (by decide)).1
  exact h.trans (by decide)

